import Mathlib

/-!
Shallow embedding of the SQLFlightManagementApp data-access layer
(`src/main.py`) and proofs about it.

Scalar values crossing the Python/SQLite boundary are either integers or
text; SQL statements are strings; the database connection is modelled as
an explicit oracle where the code only observes success/failure and rows.
-/

set_option autoImplicit false

namespace FlightApp

/-- A scalar value as handled by the program: either an `int` (produced by
`atoi` on digit-only strings) or a raw text string. -/
inductive Value where
  | int (n : Int)
  | str (s : String)
  deriving DecidableEq, Repr

/-- Python `str.isdigit` restricted to ASCII: nonempty and all characters
are decimal digits (mirrors `s.isdigit()` on the inputs the app handles). -/
def pyIsDigit (s : String) : Bool :=
  !s.data.isEmpty && s.data.all Char.isDigit

/-- Decimal value of a digit string (the effect of Python `int` on a
digit-only string). -/
def digitsToNat (l : List Char) : Nat :=
  l.foldl (fun n c => 10 * n + (c.toNat - Char.toNat '0')) 0

/-- `atoi` from `src/main.py`: `int(s) if s.isdigit() else s`. -/
def atoi (s : String) : Value :=
  if pyIsDigit s then .int (digitsToNat s.data) else .str s

/-- Python `str.lower` (ASCII): every character lowercased. -/
def pyLower (s : String) : String :=
  String.mk (s.data.map Char.toLower)

/-- Python `str.upper` (ASCII): every character uppercased. -/
def pyUpper (s : String) : String :=
  String.mk (s.data.map Char.toUpper)

/-- Python `str.capitalize`: first character uppercased, the rest lowercased. -/
def pyCapitalize (s : String) : String :=
  match s.data with
  | [] => ""
  | c :: cs => String.mk (c.toUpper :: (cs.map Char.toLower))

/-! ## DataClass (the Record abstraction)

`DataClass.attrs` is a Python `dict`, i.e. an insertion-ordered mapping:
`__setitem__` overwrites in place when the key exists and appends
otherwise; `__delitem__` removes the key. We embed it as an association
list with exactly those operations. -/

/-- Python dict assignment `attrs[k] = v`: overwrite in place, else append. -/
def dictSet (attrs : List (String × Value)) (k : String) (v : Value) :
    List (String × Value) :=
  if attrs.any (fun p => p.1 = k) then
    attrs.map (fun p => if p.1 = k then (k, v) else p)
  else
    attrs ++ [(k, v)]

/-- Python dict deletion `del attrs[k]`. -/
def dictDel (attrs : List (String × Value)) (k : String) :
    List (String × Value) :=
  attrs.filter (fun p => p.1 ≠ k)

/-- `DataClass` from `src/main.py`: a target table name plus an
insertion-ordered attribute mapping. -/
structure DataClass where
  target_table : String
  attrs : List (String × Value)
  deriving DecidableEq, Repr

namespace DataClass

/-- `__setitem__`. -/
def set (d : DataClass) (k : String) (v : Value) : DataClass :=
  { d with attrs := dictSet d.attrs k v }

/-- `__delitem__`. -/
def remove (d : DataClass) (k : String) : DataClass :=
  { d with attrs := dictDel d.attrs k }

/-- `get_columns`: lower-cased attribute keys, in insertion order. -/
def get_columns (d : DataClass) : List String :=
  d.attrs.map (fun p => pyLower p.1)

/-- `get_values`: attribute values, in insertion order. -/
def get_values (d : DataClass) : List Value :=
  d.attrs.map (fun p => p.2)

end DataClass

/-- One mutation step on a Record: `set` or `remove`. -/
inductive RecOp where
  | set (k : String) (v : Value)
  | remove (k : String)
  deriving DecidableEq, Repr

/-- Apply a sequence of `set`/`remove` operations to a `DataClass`. -/
def applyOps (d : DataClass) : List RecOp → DataClass
  | [] => d
  | .set k v :: rest => applyOps (d.set k v) rest
  | .remove k :: rest => applyOps (d.remove k) rest

/-! ## Query Builder: the INSERT statement (`_insert_data`) -/

/-- Python `",".join(l)`. -/
def joinComma : List String → String
  | [] => ""
  | [s] => s
  | s :: rest => s ++ "," ++ joinComma rest

/-- The template `self.sql_insert` instantiated by `str.format`. -/
def sql_insert (table columns values : String) : String :=
  "INSERT INTO " ++ table ++ " (" ++ columns ++ ") VALUES (" ++ values ++ ");"

/-- The SQL text built by `_insert_data`:
`sql_insert.format(table=..., columns=",".join(cols), values=",".join(["?"]*len(cols)))`. -/
def insertQuery (d : DataClass) : String :=
  sql_insert (pyCapitalize d.target_table)
    (joinComma d.get_columns)
    (joinComma (List.replicate d.get_columns.length "?"))

/-- The parameter tuple passed to `cursor.execute` by `_insert_data`:
`data.get_values()`. -/
def insertParams (d : DataClass) : List Value :=
  d.get_values

/-! ## Value coercion sites (`atoi` call sites) -/

/-- The literal filter value built by `search_data` for a column-equality
search: the user input passed through `atoi` (src/main.py line 480). -/
def searchFilterValue (input : String) : Value :=
  atoi input

/-- The value stored for a field by interactive `insert_data`
(src/main.py line 440): input passed through `atoi`. -/
def insertFieldValue (input : String) : Value :=
  atoi input

/-- The parameter tuple `(new_value, record_id)` bound by `update_data`
(src/main.py lines 509, 515, 528): `record_id` passes through `atoi`,
while `new_value` is bound as the raw input string. -/
def updateBoundParams (newValue recordId : String) : Value × Value :=
  (.str newValue, atoi recordId)

/-- The parameter bound by `delete_data` (src/main.py lines 551, 558):
the record id passed through `atoi`. -/
def deleteBoundParam (recordId : String) : Value :=
  atoi recordId

end FlightApp

namespace FlightApp

/-! ## Interactive input handling and identifier validation -/

/-- Python `str.strip` (ASCII whitespace). -/
def pyStrip (s : String) : String :=
  String.mk
    (((s.data.dropWhile Char.isWhitespace).reverse.dropWhile
        Char.isWhitespace).reverse)

/-- Python `int(...)` on an already-stripped string: an optional sign
followed by one or more decimal digits; anything else raises `ValueError`
(modelled as `none`). -/
def pyParseInt (s : String) : Option Int :=
  match s.data with
  | [] => none
  | c :: rest =>
    if c = Char.ofNat 43 then
      if !rest.isEmpty && rest.all Char.isDigit then
        some (digitsToNat rest) else none
    else if c = Char.ofNat 45 then
      if !rest.isEmpty && rest.all Char.isDigit then
        some (-(digitsToNat rest : Int)) else none
    else
      if (c :: rest).all Char.isDigit then
        some (digitsToNat (c :: rest)) else none

/-- `_get_user_input`: strip the raw line; `EXIT` (any case) cancels. -/
def getUserInput (raw : String) (allowExit : Bool) : Option String :=
  let value := pyStrip raw
  if allowExit && pyUpper value = "EXIT" then none else some value

/-- The `available_cols` menu of `_get_column_choice`: the columns paired
with their 1-based positions (Python `enumerate(columns, 1)`), excluded
columns removed (`exclude_cols or ["id"]`). -/
def availableCols (columns excludeCols : List String) :
    List (Nat × String) :=
  (columns.enumFrom 1).filter
    (fun p => p.2 ∉ (if excludeCols.isEmpty then ["id"] else excludeCols))

/-- `_get_column_choice`: present the `available_cols` menu and look the
numeric choice given by the user up in it (`EXIT` and unparsable
numbers cancel). -/
def getColumnChoice (columns excludeCols : List String)
    (rawChoice : String) : Option String :=
  if (availableCols columns excludeCols).isEmpty then none
  else
    match getUserInput rawChoice true with
    | none => none
    | some choice =>
      match pyParseInt choice with
      | none => none
      | some n =>
        ((availableCols columns excludeCols).find?
          (fun p => (p.1 : Int) = n)).map (fun p => p.2)

/-- `dict.get` on a fixed association table. -/
def pyDictGet {α : Type} (l : List (String × α)) (k : String) : Option α :=
  (l.find? (fun p => p.1 = k)).map (fun p => p.2)

/-- The registered table names: `get_table_names` = the keys of
`sql_create_base`, in insertion order. -/
def get_table_names : List String :=
  ["pilots", "destinations", "flights"]

/-- `DBUI.entities`: the fixed menu-choice → table-name map. -/
def entities : List (String × String) :=
  [("1", "flights"), ("2", "pilots"), ("3", "destinations")]

/-- `DBUI.group_map`: the fixed menu-choice → grouping-mode map. -/
def group_map : List (String × String) :=
  [("1", "Pilot"), ("2", "Source"), ("3", "Destination")]

/-- `flight_summary.group_config`: grouping mode → (joined table, join
column on Flights, grouping column). -/
def group_config : List (String × (String × String × String)) :=
  [("Pilot", ("Pilots", "pilot_id", "name")),
   ("Source", ("Destinations", "source_id", "airport_code")),
   ("Destination", ("Destinations", "destination_id", "airport_code"))]

/-! ## Executor (`_execute_query`) and error handling (`_handle_error`) -/

/-- A structured log record (each constructor carries exactly the data the
corresponding `logging` call formats into its line). -/
inductive LogEntry where
  | debugRun (query : String) (params : List Value)
  | errorLog (message : String) (exception : String)
  | infoLog (message : String)
  deriving DecidableEq, Repr

/-- The observable behaviour of the sqlite connection executing one
statement with bound parameters: fetched rows, or a raised exception
(carried as its message). -/
abbrev Exec : Type :=
  String → List Value → Except String (List (List Value))

/-- Result of one operation: its return value plus the log entries and
console messages it emitted. -/
structure CallResult (α : Type) where
  value : α
  log : List LogEntry
  prints : List String
  deriving DecidableEq, Repr

/-- `_handle_error`: print the fixed message, log the error. -/
def handleError (message exception : String) :
    List LogEntry × List String :=
  ([.errorLog message exception], ["Error, operation aborted"])

/-- `_execute_query`: log the statement and parameters, execute (with the
parameter tuple when nonempty), return the fetched rows; any raised
exception is caught, handled by `_handle_error`, and surfaced as `none`.
The embedding is a total function: no exception propagates. -/
def executeQuery (exec : Exec) (query : String) (params : List Value) :
    CallResult (Option (List (List Value))) :=
  let runLog := [LogEntry.debugRun query params]
  match (if params.isEmpty then exec query [] else exec query params) with
  | .ok rows => ⟨some rows, runLog, []⟩
  | .error e =>
    let he := handleError "Query execution failed" e
    ⟨none, runLog ++ he.1, he.2⟩

/-! ## Schema introspection (`get_table_columns`) -/

/-- A database schema: the sqlite catalog as a table-name → column-list
association (sqlite compares table names case-insensitively). -/
abbrev Schema : Type := List (String × List String)

/-- sqlite `PRAGMA table_info(t)`: the column rows of `t`, and an EMPTY
row set — not an error — when the table does not exist. -/
def pragmaTableInfo (schema : Schema) (table : String) :
    Except String (List String) :=
  match schema.find? (fun p => pyLower p.1 = pyLower table) with
  | some p => .ok p.2
  | none => .ok []

/-- `get_table_columns`: run the catalog query through the store; a raised
exception is caught by `_handle_error` and an empty list returned. -/
def getTableColumns (introspect : String → Except String (List String))
    (table : String) : CallResult (List String) :=
  match introspect table with
  | .ok cols => ⟨cols, [], []⟩
  | .error e =>
    let he := handleError ("Failed to get columns for " ++ table) e
    ⟨[], he.1, he.2⟩

/-- The live schema of the three bootstrap tables (from the DDL in
`sql_create_base`). -/
def demoSchema : Schema :=
  [("Pilots", ["id", "name", "license_number", "flight_hours"]),
   ("Destinations", ["id", "city", "country", "airport_code"]),
   ("Flights", ["id", "flight_number", "source_id", "destination_id",
     "departure_time", "arrival_time", "status", "pilot_id"])]

end FlightApp

namespace FlightApp

/-! ## Flight summary (`flight_summary`) and display -/

/-- The `sql_flight_count` template instantiated by `str.format`
(whitespace collapsed). -/
def sql_flight_count (group_column table_a a_id condition : String) :
    String :=
  "SELECT a." ++ group_column ++ ", COUNT(fl.id) FROM " ++ table_a ++
    " a LEFT JOIN Flights fl ON a.id = fl." ++ a_id ++ " WHERE " ++
    condition ++ " GROUP BY a." ++ group_column ++ ";"

/-- What an operation shows the user: a rendered table or a plain text
message. -/
inductive DisplayOutput where
  | table (headers : List String) (rows : List (List Value))
  | message (s : String)
  deriving DecidableEq, Repr

/-- `flight_summary`: reject an unrecognized grouping mode before any SQL
is built; otherwise build the join-aggregate query from the fixed
`group_config` entry, execute it, and render the rows — falling back to
the fixed message when `data` is falsy (a failed execution OR an empty
row list). -/
def flight_summary (exec : Exec) (group_by condition : String) :
    DisplayOutput :=
  match pyDictGet group_config group_by with
  | none => .message ("Grouping by \x27" ++ group_by ++ "\x27 is not supported.")
  | some (table_a, a_id, group_column) =>
    let query := sql_flight_count group_column table_a a_id condition
    match (executeQuery exec query []).value with
    | some rows =>
      if rows.isEmpty then .message "No summary data found."
      else .table [group_column, "NumFlights"] rows
    | none => .message "No summary data found."

/-! ## Semantics of the UPDATE / DELETE statements on a table state

The Query Builder emits `UPDATE {table} SET {field} = ? WHERE id = ?;`
and `DELETE FROM {table} WHERE {condition};` with `condition = "id = ?"`
and bound parameters.  We give these fixed statement shapes their sqlite
semantics on an explicit table state; `cursor.rowcount` is the number of
matched rows. -/

/-- A table state: column names and rows, each row positionally aligned
with `cols`. -/
structure Table where
  cols : List String
  rows : List (List Value)
  deriving DecidableEq, Repr

/-- `UPDATE t SET field = ? WHERE id = ?;` bound to `(newVal, idVal)`:
set the `field` column on every row whose `id` column equals `idVal`;
report the matched-row count (`cursor.rowcount`). -/
def sqlUpdate (t : Table) (field : String) (newVal idVal : Value) :
    Table × Nat :=
  match t.cols.findIdx? (fun c => c = "id"),
      t.cols.findIdx? (fun c => c = field) with
  | some idIdx, some fIdx =>
    ({ t with rows := t.rows.map (fun row =>
        if row[idIdx]? = some idVal then row.set fIdx newVal else row) },
      (t.rows.filter (fun row => row[idIdx]? = some idVal)).length)
  | _, _ => (t, 0)

/-- `DELETE FROM t WHERE id = ?;` bound to `idVal`: remove every row whose
`id` column equals `idVal`; report the deleted-row count
(`cursor.rowcount`). -/
def sqlDelete (t : Table) (idVal : Value) : Table × Nat :=
  match t.cols.findIdx? (fun c => c = "id") with
  | some idIdx =>
    let remaining := t.rows.filter (fun row => ¬ row[idIdx]? = some idVal)
    ({ t with rows := remaining }, t.rows.length - remaining.length)
  | none => (t, 0)

/-- The console report of `delete_data` from `cursor.rowcount`. -/
def deleteReport (tableName : String) (rowcount : Nat) : String :=
  if rowcount > 0 then "Successfully deleted from table " ++ tableName
  else "Record not found."

/-! ## Bootstrap (`initialize_tables`, `create_table`, `populate_table`) -/

/-- Python `file.readlines` semantics on whole-file contents: split on
newlines; a trailing newline does not produce an extra empty line. -/
def pyReadLines (contents : String) : List String :=
  let parts := contents.splitOn "\n"
  match parts.getLast? with
  | some "" => parts.dropLast
  | _ => parts

/-- `populate_table` parsing: the first line is the lower-cased header,
every later line a row of stripped comma-separated fields. -/
def parseSeedFile (contents : String) : List String × List (List String) :=
  match pyReadLines contents with
  | [] => ([], [])
  | headerLine :: rest =>
    ((pyStrip headerLine).splitOn "," |>.map pyLower,
      rest.map (fun line => ((pyStrip line).splitOn ",").map pyStrip))

/-- Python `dict(zip(ks, vs))`: positional pairing, truncated to the
shorter side, later duplicate keys overwriting in place. -/
def dictOfZip (ks : List String) (vs : List Value) :
    List (String × Value) :=
  (ks.zip vs).foldl (fun acc kv => dictSet acc kv.1 kv.2) []

/-- The per-table seed files: lower-cased table name → file contents, or
the raised exception (missing file, unreadable file). -/
abbrev SeedStore : Type := String → Except String String

/-- Observable bootstrap state: tables created, Records handed to
`_insert_data`, log, console output. -/
structure BootState where
  created : List String
  inserted : List DataClass
  log : List LogEntry
  prints : List String
  deriving DecidableEq, Repr

/-- `create_table`: look up the DDL under the lower-cased name (a missing
key is logged as an error); the registered `CREATE TABLE IF NOT EXISTS`
statements themselves are fixed valid SQL, modelled as succeeding. -/
def createTable (st : BootState) (tableName : String) : BootState :=
  if pyLower tableName ∈ get_table_names then
    { st with
      created := st.created ++ [tableName],
      log := st.log ++
        [.infoLog ("Table " ++ tableName ++ " created successfully")] }
  else
    { st with log := st.log ++
        [.errorLog ("Cannot find DDL for table " ++ tableName) "KeyError"] }

/-- `populate_table`: read the seed file for the lower-cased table name;
any raised exception is caught by `_handle_error` (population of THIS
table aborts, the caller continues); otherwise every data row becomes a
`DataClass` fed to `_insert_data` (which catches its own failures). -/
def populateTable (seeds : SeedStore) (st : BootState)
    (tableName : String) : BootState :=
  match seeds (pyLower tableName) with
  | .error e =>
    { st with
      log := st.log ++ [.errorLog ("Failed to populate table " ++ tableName) e],
      prints := st.prints ++ ["Error, operation aborted"] }
  | .ok contents =>
    let parsed := parseSeedFile contents
    let recs := parsed.2.map (fun fields =>
      DataClass.mk tableName (dictOfZip parsed.1 (fields.map Value.str)))
    { st with
      inserted := st.inserted ++ recs,
      log := st.log ++
        [.infoLog ("Successfully populated table " ++ tableName)] }

/-- One iteration of the `initialize_tables` loop: create, then populate. -/
def bootStep (seeds : SeedStore) (st : BootState) (tableName : String) :
    BootState :=
  populateTable seeds (createTable st tableName) tableName

/-- `initialize_tables`: create and populate every registered table, in
registry order. -/
def initialize_tables (seeds : SeedStore) (st : BootState) : BootState :=
  get_table_names.foldl (bootStep seeds) st

/-- The empty bootstrap state. -/
def initState : BootState := ⟨[], [], [], []⟩

/-- A concrete seed store for witnesses: the pilots seed file exists,
every other seed file raises `FileNotFoundError`. -/
def demoSeeds : SeedStore := fun name =>
  if name = "pilots" then
    .ok "id,name,license_number,flight_hours\n1,Jane Doe,ABC123,500"
  else
    .error "FileNotFoundError"

/-- A concrete two-row Pilots table state for witnesses. -/
def pilotsTable : Table :=
  ⟨["id", "name", "license_number", "flight_hours"],
    [[Value.int 1, Value.str "Jane Doe", Value.str "ABC123", Value.int 500],
     [Value.int 2, Value.str "John Roe", Value.str "XYZ789", Value.int 80]]⟩

end FlightApp

open FlightApp

/-- C2: for any Record, `get_columns` and `get_values` have equal length and
the `i`-th column and `i`-th value are the two projections of the same
`i`-th attribute, after any sequence of `set`/`remove` operations. -/
theorem record_alignment_invariant (d : DataClass) (ops : List RecOp) :
    (applyOps d ops).get_columns.length = (applyOps d ops).get_values.length ∧
    ∀ i (h : i < (applyOps d ops).attrs.length),
      (applyOps d ops).get_columns.get
          ⟨i, by simpa [DataClass.get_columns] using h⟩ =
        pyLower ((applyOps d ops).attrs.get ⟨i, h⟩).1 ∧
      (applyOps d ops).get_values.get
          ⟨i, by simpa [DataClass.get_values] using h⟩ =
        ((applyOps d ops).attrs.get ⟨i, h⟩).2 := by
  refine ⟨by simp [DataClass.get_columns, DataClass.get_values], ?_⟩
  intro i h
  constructor
  · simp [DataClass.get_columns]
  · simp [DataClass.get_values]

/-- Witness for `record_alignment_invariant` at a concrete Record and
operation sequence. -/
theorem record_alignment_invariant_witness :
    (applyOps ⟨"pilots", []⟩
        [.set "Name" (.str "Jane"), .set "Flight_Hours" (.int 500),
         .remove "Name", .set "Flight_Hours" (.int 600)]).get_columns.get
        ⟨0, by decide⟩ = "flight_hours" := by
  have h := record_alignment_invariant ⟨"pilots", []⟩
    [.set "Name" (.str "Jane"), .set "Flight_Hours" (.int 500),
     .remove "Name", .set "Flight_Hours" (.int 600)]
  have h0 := (h.2 0 (by decide)).1
  exact h0.trans (by decide)

/-! ## C3: shape of the generated INSERT statement -/

theorem string_data_append (a b : String) : (a ++ b).data = a.data ++ b.data :=
  rfl

theorem count_joinComma (c : Char) (hc : c ≠ ',') (l : List String) :
    (joinComma l).data.count c = (l.map (fun s => s.data.count c)).sum := by
  induction l with
  | nil => simp [joinComma]
  | cons s rest ih =>
    cases rest with
    | nil => simp [joinComma]
    | cons t r =>
      have hcomma : (",".data.count c) = 0 := by
        simp [List.count_cons, Ne.symm hc]
      simp only [joinComma, string_data_append, List.count_append, List.map_cons,
        List.sum_cons] at *
      omega

theorem count_joinComma_replicate (c : Char) (hc : c ≠ ',') (n : Nat)
    (s : String) :
    (joinComma (List.replicate n s)).data.count c = n * s.data.count c := by
  rw [count_joinComma c hc]
  rw [List.map_replicate, List.sum_replicate, smul_eq_mul]

/-- C3: for an insert of a Record with `n` attributes, the generated
statement is the INSERT template filled with the `n` comma-joined column
names and an equal-length list of `n` placeholders; the statement text
contains exactly `n` occurrences of the placeholder character (provided no
identifier contains one); the attribute values are passed only as the
bound-parameter tuple, and the statement text does not depend on the
values at all. -/
theorem insert_statement_shape (d : DataClass)
    (htable : Char.ofNat 63 ∉ (pyCapitalize d.target_table).data)
    (hcols : ∀ col ∈ d.get_columns, Char.ofNat 63 ∉ col.data) :
    d.get_columns.length = d.attrs.length ∧
    insertQuery d =
      sql_insert (pyCapitalize d.target_table) (joinComma d.get_columns)
        (joinComma (List.replicate d.attrs.length "?")) ∧
    (insertQuery d).data.count (Char.ofNat 63) = d.attrs.length ∧
    insertParams d = d.get_values ∧
    (insertParams d).length = d.attrs.length ∧
    (∀ d2 : DataClass, d2.target_table = d.target_table →
        d2.get_columns = d.get_columns → insertQuery d2 = insertQuery d) := by
  have hlen : d.get_columns.length = d.attrs.length := by
    simp [DataClass.get_columns]
  have hq : (Char.ofNat 63) ≠ ',' := by decide
  refine ⟨hlen, by rw [insertQuery, hlen], ?_, rfl, by simp [insertParams, DataClass.get_values], ?_⟩
  · have hcolcount : (joinComma d.get_columns).data.count (Char.ofNat 63) = 0 := by
      rw [count_joinComma _ hq]
      refine List.sum_eq_zero ?_
      intro x hx
      rcases List.mem_map.mp hx with ⟨col, hcol, hxeq⟩
      rw [← hxeq]
      exact List.count_eq_zero.mpr (hcols col hcol)
    have hrep : (joinComma (List.replicate d.get_columns.length "?")).data.count (Char.ofNat 63) =
        d.get_columns.length := by
      rw [count_joinComma_replicate _ hq]
      have hone : ("?".data.count (Char.ofNat 63)) = 1 := by decide
      rw [hone, Nat.mul_one]
    rw [insertQuery, sql_insert]
    simp only [string_data_append, List.count_append]
    rw [hcolcount, hrep, List.count_eq_zero.mpr htable, hlen]
    have h1 : List.count (Char.ofNat 63)
        ['I', 'N', 'S', 'E', 'R', 'T', ' ', 'I', 'N', 'T', 'O', ' '] = 0 := by decide
    have h2 : List.count (Char.ofNat 63) [' ', '('] = 0 := by decide
    have h3 : List.count (Char.ofNat 63)
        [')', ' ', 'V', 'A', 'L', 'U', 'E', 'S', ' ', '('] = 0 := by decide
    have h4 : List.count (Char.ofNat 63) [')', ';'] = 0 := by decide
    rw [h1, h2, h3, h4]
    omega
  · intro d2 ht hc
    rw [insertQuery, insertQuery, ht, hc]

/-- Witness for `insert_statement_shape` at a concrete two-attribute
Record: the statement contains exactly two placeholders. -/
theorem insert_statement_shape_witness :
    (insertQuery ⟨"pilots", [("name", Value.str "Jane"),
        ("flight_hours", Value.int 500)]⟩).data.count (Char.ofNat 63) = 2 :=
  (insert_statement_shape
    ⟨"pilots", [("name", Value.str "Jane"), ("flight_hours", Value.int 500)]⟩
    (by decide) (by decide)).2.2.1

/-! ## C4: numeric coercion of values -/

/-- C4 counterexample: the claim says every value bound by a write
operation passes through numeric coercion, but `update_data` binds the new
value as the raw input string: for input "600" it binds the text "600",
not the integer `atoi` would produce. -/
theorem update_value_coercion_counterexample :
    (updateBoundParams "600" "1").1 = Value.str "600" ∧
    atoi "600" = Value.int 600 ∧
    (updateBoundParams "600" "1").1 ≠ atoi "600" := by
  decide

/-- C4 amended: literal filter values in column-equality search, values of
interactive insert, and the record ids bound by update/delete all pass
through `atoi` (digit-only strings become integers, everything else stays
text) — but the new value bound by `update_data` is bound as raw text
without coercion. -/
theorem coercion_routing (s v r : String) :
    searchFilterValue s = atoi s ∧
    insertFieldValue s = atoi s ∧
    deleteBoundParam r = atoi r ∧
    (updateBoundParams v r).2 = atoi r ∧
    (updateBoundParams v r).1 = Value.str v ∧
    (pyIsDigit s = true → atoi s = Value.int (digitsToNat s.data)) ∧
    (pyIsDigit s = false → atoi s = Value.str s) := by
  refine ⟨rfl, rfl, rfl, rfl, rfl, ?_, ?_⟩ <;> intro h <;> simp [atoi, h]

/-- Witness for `coercion_routing` at concrete inputs. -/
theorem coercion_routing_witness :
    searchFilterValue "600" = Value.int 600 ∧
    (updateBoundParams "on-time" "7").1 = Value.str "on-time" ∧
    atoi "600" = Value.int 600 := by
  have h := coercion_routing "600" "on-time" "7"
  exact ⟨h.1.trans (by decide), h.2.2.2.2.1,
    (h.2.2.2.2.2.1 (by decide)).trans (by decide)⟩


/-! ## C1: membership validation of interpolated identifiers -/

theorem snd_mem_enumFrom {α : Type} (l : List α) (n : Nat) (p : Nat × α)
    (h : p ∈ l.enumFrom n) : p.2 ∈ l := by
  induction l generalizing n with
  | nil => simp [List.enumFrom] at h
  | cons a t ih =>
    simp only [List.enumFrom] at h
    rcases List.mem_cons.mp h with h1 | h2
    · rw [h1]
      exact List.mem_cons_self a t
    · exact List.mem_cons_of_mem a (ih _ h2)

/-- C1: every identifier the interactive search, update, and group
operations interpolate into SQL text is membership-validated first: a
column chosen through `_get_column_choice` is always a member of the
(live, introspected) column list it was offered from; a table name
reaching those operations through the menu is a value of the fixed
`entities` map and names a registered table; a grouping key is the result
of looking the mode up in the fixed `group_config` table (and the
grouping choices of the menu map into that table). -/
theorem interpolated_identifiers_validated :
    (∀ (columns excludeCols : List String) (rawChoice c : String),
        getColumnChoice columns excludeCols rawChoice = some c →
        c ∈ columns) ∧
    (∀ choice t, pyDictGet entities choice = some t →
        t ∈ get_table_names) ∧
    (∀ g cfg, pyDictGet group_config g = some cfg →
        (g, cfg) ∈ group_config) ∧
    (∀ k m, pyDictGet group_map k = some m →
        (pyDictGet group_config m).isSome = true) := by
  refine ⟨?_, ?_, ?_, ?_⟩
  · intro columns excludeCols rawChoice c h
    unfold getColumnChoice at h
    split at h
    · exact Option.noConfusion h
    · split at h
      · exact Option.noConfusion h
      · split at h
        · exact Option.noConfusion h
        · rcases Option.map_eq_some'.mp h with ⟨p, hfind, hp⟩
          have hmem := List.mem_of_find?_eq_some hfind
          have hmem2 := (List.mem_filter.mp hmem).1
          rw [← hp]
          exact snd_mem_enumFrom _ _ _ hmem2
  · intro choice t h
    rcases Option.map_eq_some'.mp h with ⟨p, hfind, hp⟩
    have hmem := List.mem_of_find?_eq_some hfind
    simp only [entities, List.mem_cons, List.not_mem_nil, or_false] at hmem
    rcases hmem with rfl | rfl | rfl <;> (rw [← hp] ; decide)
  · intro g cfg h
    rcases Option.map_eq_some'.mp h with ⟨p, hfind, hp⟩
    have hmem := List.mem_of_find?_eq_some hfind
    have hkey : p.1 = g := by
      have hk := List.find?_some hfind
      simpa using hk
    have hpair : (g, cfg) = p := by
      rw [← hkey, ← hp]
    rw [hpair]
    exact hmem
  · intro k m h
    rcases Option.map_eq_some'.mp h with ⟨p, hfind, hp⟩
    have hmem := List.mem_of_find?_eq_some hfind
    simp only [group_map, List.mem_cons, List.not_mem_nil, or_false] at hmem
    rcases hmem with rfl | rfl | rfl <;> (rw [← hp] ; decide)

/-- Witness for `interpolated_identifiers_validated` at concrete inputs:
menu choice 2 over the Pilots columns selects `name`, a member; menu
choice 1 maps to the registered table `flights`; mode `Pilot` is an entry
of the grouping table. -/
theorem interpolated_identifiers_validated_witness :
    "name" ∈ ["id", "name", "license_number", "flight_hours"] ∧
    "flights" ∈ get_table_names ∧
    ("Pilot", ("Pilots", "pilot_id", "name")) ∈ group_config ∧
    (pyDictGet group_config "Pilot").isSome = true := by
  have h := interpolated_identifiers_validated
  exact ⟨h.1 ["id", "name", "license_number", "flight_hours"] [] "2" "name"
      (by decide),
    h.2.1 "1" "flights" (by decide),
    h.2.2.1 "Pilot" ("Pilots", "pilot_id", "name") (by decide),
    h.2.2.2 "1" "Pilot" (by decide)⟩

/-! ## C5: the Executor contains every failure -/

theorem exec_if_empty (exec : Exec) (q : String) (params : List Value) :
    (if params.isEmpty then exec q [] else exec q params) =
      exec q params := by
  cases params <;> simp

/-- C5: for every statement run through `_execute_query`, a raised
execution failure is caught — the result is `none`, the log holds the
debug entry carrying the failing statement and parameters plus the error
entry, the console shows the fixed abort message, and (the embedding
being a total function) the process never aborts; on success the fetched
rows are returned. -/
theorem executor_error_containment (exec : Exec) (query : String)
    (params : List Value) :
    (∀ e, exec query params = .error e →
        (executeQuery exec query params).value = none ∧
        LogEntry.debugRun query params ∈
          (executeQuery exec query params).log ∧
        LogEntry.errorLog "Query execution failed" e ∈
          (executeQuery exec query params).log ∧
        (executeQuery exec query params).prints =
          ["Error, operation aborted"]) ∧
    (∀ rows, exec query params = .ok rows →
        (executeQuery exec query params).value = some rows ∧
        LogEntry.debugRun query params ∈
          (executeQuery exec query params).log) := by
  constructor
  · intro e he
    cases params <;> simp [executeQuery, he, handleError]
  · intro rows hr
    cases params <;> simp [executeQuery, hr]

/-- Witness for `executor_error_containment`: a failing statement yields
`none`, a succeeding one yields its rows. -/
theorem executor_error_containment_witness :
    (executeQuery (fun _ _ => .error "UNIQUE constraint failed")
        "INSERT INTO Pilots (name) VALUES (?);" [Value.str "Jane"]).value =
      none ∧
    (executeQuery (fun _ _ => .ok [[Value.int 1]])
        "SELECT * FROM Pilots WHERE 1=1;" []).value = some [[Value.int 1]] := by
  exact ⟨((executor_error_containment
        (fun _ _ => .error "UNIQUE constraint failed")
        "INSERT INTO Pilots (name) VALUES (?);" [Value.str "Jane"]).1
      "UNIQUE constraint failed" rfl).1,
    ((executor_error_containment (fun _ _ => .ok [[Value.int 1]])
        "SELECT * FROM Pilots WHERE 1=1;" []).2 [[Value.int 1]] rfl).1⟩

/-! ## C6: introspecting a missing table -/

/-- C6 counterexample: introspecting a table that does not exist returns
the empty list through the SUCCESS path of `get_table_columns` — the
catalog query `PRAGMA table_info` yields zero rows without raising — so
no SchemaLookupError-class failure is signalled anywhere (no error log
entry, no console message), contrary to the claimed failure. -/
theorem missing_table_no_failure_counterexample :
    (getTableColumns (pragmaTableInfo demoSchema) "Nonexistent").value =
      [] ∧
    (getTableColumns (pragmaTableInfo demoSchema) "Nonexistent").log =
      [] ∧
    (getTableColumns (pragmaTableInfo demoSchema) "Nonexistent").prints =
      [] ∧
    ¬ ∃ m ex, LogEntry.errorLog m ex ∈
        (getTableColumns (pragmaTableInfo demoSchema) "Nonexistent").log := by
  refine ⟨by decide, by decide, by decide, ?_⟩
  rintro ⟨m, ex, hm⟩
  rw [show (getTableColumns (pragmaTableInfo demoSchema) "Nonexistent").log
      = [] from by decide] at hm
  exact absurd hm (List.not_mem_nil _)

/-- C6 amended: requesting the columns of a table absent from the schema
does not crash and the caller receives an empty list, but no failure is
signalled: the catalog query succeeds with zero rows.  An error is logged
(and an empty list returned) only when the catalog query itself raises,
e.g. when the store is unreachable. -/
theorem missing_table_returns_empty (schema : Schema) (table : String)
    (habs : ∀ p ∈ schema, pyLower p.1 ≠ pyLower table) :
    getTableColumns (pragmaTableInfo schema) table =
      ⟨[], [], []⟩ ∧
    (∀ (ist : String → Except String (List String)) (e : String),
        ist table = .error e →
        (getTableColumns ist table).value = [] ∧
        LogEntry.errorLog ("Failed to get columns for " ++ table) e ∈
          (getTableColumns ist table).log) := by
  constructor
  · have hfind :
        schema.find? (fun p => pyLower p.1 = pyLower table) = none := by
      rw [List.find?_eq_none]
      intro p hp
      simpa using habs p hp
    simp [getTableColumns, pragmaTableInfo, hfind]
  · intro ist e he
    simp [getTableColumns, he, handleError]

/-- Witness for `missing_table_returns_empty` at the live bootstrap
schema and table name `Nonexistent`. -/
theorem missing_table_returns_empty_witness :
    getTableColumns (pragmaTableInfo demoSchema) "Nonexistent" =
      ⟨[], [], []⟩ ∧
    (getTableColumns (fun _ => .error "unable to open database file")
        "Nonexistent").value = [] := by
  have h := missing_table_returns_empty demoSchema "Nonexistent" (by decide)
  exact ⟨h.1,
    (h.2 (fun _ => .error "unable to open database file")
      "unable to open database file" rfl).1⟩

/-! ## C10: flight summary conflates failure with emptiness -/

/-- C10: for a supported grouping mode, `flight_summary` renders the same
fixed message whether the executed query FAILED (`None`) or succeeded
with ZERO groups (empty row list) — the caller cannot tell the two
apart. -/
theorem flight_summary_conflates_failure_and_empty (g cond : String)
    (table_a a_id group_column : String)
    (hg : pyDictGet group_config g = some (table_a, a_id, group_column))
    (exec : Exec)
    (h : exec (sql_flight_count group_column table_a a_id cond) [] =
          .ok [] ∨
        ∃ e, exec (sql_flight_count group_column table_a a_id cond) [] =
          .error e) :
    flight_summary exec g cond = .message "No summary data found." := by
  rcases h with h | ⟨e, h⟩ <;>
    simp [flight_summary, hg, executeQuery, h]

/-- Witness for `flight_summary_conflates_failure_and_empty`: grouping by
`Pilot` with an oracle returning zero rows and one raising an error both
render the same message. -/
theorem flight_summary_conflates_witness :
    flight_summary (fun _ _ => .ok []) "Pilot" "1=1" =
      .message "No summary data found." ∧
    flight_summary (fun _ _ => .error "no such table") "Pilot" "1=1" =
      .message "No summary data found." := by
  exact ⟨flight_summary_conflates_failure_and_empty "Pilot" "1=1"
      "Pilots" "pilot_id" "name" (by decide) _ (Or.inl rfl),
    flight_summary_conflates_failure_and_empty "Pilot" "1=1"
      "Pilots" "pilot_id" "name" (by decide) _
      (Or.inr ⟨"no such table", rfl⟩)⟩

/-! ## C7 / C8: frame properties of update-by-id and delete-by-id -/

theorem map_eq_self_of_id {α : Type} (l : List α) (f : α → α)
    (h : ∀ a ∈ l, f a = a) : l.map f = l := by
  rw [List.map_congr_left h]
  exact List.map_id l

theorem length_filter_add_not_prop {α : Type} (q : α → Prop)
    [DecidablePred q] (l : List α) :
    (l.filter (fun a => q a)).length +
      (l.filter (fun a => ¬ q a)).length = l.length := by
  induction l with
  | nil => rfl
  | cons a t ih =>
    by_cases h : q a
    · rw [List.filter_cons_of_pos (by simpa using h),
        List.filter_cons_of_neg (by simpa using h)]
      simp only [List.length_cons]
      omega
    · rw [List.filter_cons_of_neg (by simpa using h),
        List.filter_cons_of_pos (by simpa using h)]
      simp only [List.length_cons]
      omega

theorem filter_length_le_one {α β : Type} [DecidableEq β]
    (f : α → Option β) (v : β) (l : List α)
    (h : (l.map f).Nodup) :
    (l.filter (fun a => f a = some v)).length ≤ 1 := by
  induction l with
  | nil => simp
  | cons a t ih =>
    rw [List.map_cons, List.nodup_cons] at h
    by_cases hv : f a = some v
    · rw [List.filter_cons_of_pos (by simpa using hv)]
      have htail : t.filter (fun x => f x = some v) = [] := by
        rw [List.filter_eq_nil_iff]
        intro x hx
        simp only [decide_eq_true_eq]
        intro hfx
        exact h.1 (List.mem_map.mpr ⟨x, hx, by rw [hfx, hv]⟩)
      rw [htail]
      simp
    · rw [List.filter_cons_of_neg (by simpa using hv)]
      exact ih h.2

theorem filter_length_eq_one {α β : Type} [DecidableEq β]
    (f : α → Option β) (v : β) (l : List α)
    (h : (l.map f).Nodup) (hex : ∃ a ∈ l, f a = some v) :
    (l.filter (fun a => f a = some v)).length = 1 := by
  rcases hex with ⟨a, ha, hfa⟩
  have hmem : a ∈ l.filter (fun x => f x = some v) :=
    List.mem_filter.mpr ⟨ha, by simpa using hfa⟩
  have hpos : 0 < (l.filter (fun x => f x = some v)).length :=
    List.length_pos.mpr (List.ne_nil_of_mem hmem)
  have hle := filter_length_le_one f v l h
  omega

/-- C7: update-by-id on a table whose id values are distinct changes
exactly the targeted column of exactly the targeted row: rows whose id
differs from the bound id are returned unchanged at their position, the
matching row changes only the `field` column, the row count and column
set are preserved, a non-existent id reports zero rows affected and
leaves the table identical, and an existing id reports exactly one row
affected. -/
theorem update_by_id_frame (t : Table) (field : String)
    (newVal idVal : Value) (idIdx fIdx : Nat)
    (hid : t.cols.findIdx? (fun c => c = "id") = some idIdx)
    (hf : t.cols.findIdx? (fun c => c = field) = some fIdx)
    (hnodup : (t.rows.map (fun r => r[idIdx]?)).Nodup) :
    (sqlUpdate t field newVal idVal).1.cols = t.cols ∧
    (sqlUpdate t field newVal idVal).1.rows.length = t.rows.length ∧
    (∀ (i : Nat) (row : List Value),
        t.rows[i]? = some row → ¬ row[idIdx]? = some idVal →
        (sqlUpdate t field newVal idVal).1.rows[i]? = some row) ∧
    (∀ (i : Nat) (row : List Value),
        t.rows[i]? = some row → row[idIdx]? = some idVal →
        (sqlUpdate t field newVal idVal).1.rows[i]? =
          some (row.set fIdx newVal) ∧
        ∀ k : Nat, ¬ k = fIdx → (row.set fIdx newVal)[k]? = row[k]?) ∧
    ((∀ row ∈ t.rows, ¬ row[idIdx]? = some idVal) →
        (sqlUpdate t field newVal idVal).2 = 0 ∧
        (sqlUpdate t field newVal idVal).1 = t) ∧
    ((∃ row ∈ t.rows, row[idIdx]? = some idVal) →
        (sqlUpdate t field newVal idVal).2 = 1) := by
  simp only [sqlUpdate, hid, hf]
  refine ⟨by trivial, by simp, ?_, ?_, ?_, ?_⟩
  · intro i row hrow hne
    rw [List.getElem?_map, hrow]
    simp [hne]
  · intro i row hrow heq
    constructor
    · rw [List.getElem?_map, hrow]
      simp [heq]
    · intro k hk
      exact List.getElem?_set_ne (fun hcontra => hk hcontra.symm)
  · intro hall
    constructor
    · have hfil : t.rows.filter (fun row => row[idIdx]? = some idVal) = [] := by
        rw [List.filter_eq_nil_iff]
        intro r hr
        simpa using hall r hr
      rw [hfil]
      rfl
    · have hmap : t.rows.map (fun row =>
          if row[idIdx]? = some idVal then row.set fIdx newVal else row) =
          t.rows := by
        apply map_eq_self_of_id
        intro r hr
        rw [if_neg (hall r hr)]
      rw [hmap]
  · intro hex
    exact filter_length_eq_one (fun r => r[idIdx]?) idVal t.rows hnodup hex

/-- Witness for `update_by_id_frame`: a two-row Pilots table, updating
`flight_hours` of the row with id 1 affects exactly one row; the row with
id 2 is unchanged; binding a missing id 9 affects zero rows. -/
theorem update_by_id_frame_witness :
    (sqlUpdate
      ⟨["id", "name", "license_number", "flight_hours"],
        [[Value.int 1, Value.str "Jane Doe", Value.str "ABC123", Value.int 500],
         [Value.int 2, Value.str "John Roe", Value.str "XYZ789", Value.int 80]]⟩
      "flight_hours" (Value.str "600") (Value.int 1)).2 = 1 ∧
    (sqlUpdate
      ⟨["id", "name", "license_number", "flight_hours"],
        [[Value.int 1, Value.str "Jane Doe", Value.str "ABC123", Value.int 500],
         [Value.int 2, Value.str "John Roe", Value.str "XYZ789", Value.int 80]]⟩
      "flight_hours" (Value.str "600") (Value.int 1)).1.rows[1]? =
      some [Value.int 2, Value.str "John Roe", Value.str "XYZ789",
        Value.int 80] ∧
    (sqlUpdate
      ⟨["id", "name", "license_number", "flight_hours"],
        [[Value.int 1, Value.str "Jane Doe", Value.str "ABC123", Value.int 500],
         [Value.int 2, Value.str "John Roe", Value.str "XYZ789", Value.int 80]]⟩
      "flight_hours" (Value.str "600") (Value.int 9)).2 = 0 := by
  have h1 := update_by_id_frame
    ⟨["id", "name", "license_number", "flight_hours"],
      [[Value.int 1, Value.str "Jane Doe", Value.str "ABC123", Value.int 500],
       [Value.int 2, Value.str "John Roe", Value.str "XYZ789", Value.int 80]]⟩
    "flight_hours" (Value.str "600") (Value.int 1) 0 3
    (by decide) (by decide) (by decide)
  have h9 := update_by_id_frame
    ⟨["id", "name", "license_number", "flight_hours"],
      [[Value.int 1, Value.str "Jane Doe", Value.str "ABC123", Value.int 500],
       [Value.int 2, Value.str "John Roe", Value.str "XYZ789", Value.int 80]]⟩
    "flight_hours" (Value.str "600") (Value.int 9) 0 3
    (by decide) (by decide) (by decide)
  refine ⟨h1.2.2.2.2.2
    ⟨[Value.int 1, Value.str "Jane Doe", Value.str "ABC123", Value.int 500],
      by decide, by decide⟩, ?_, (h9.2.2.2.2.1 (by decide)).1⟩
  exact h1.2.2.1 1
    [Value.int 2, Value.str "John Roe", Value.str "XYZ789", Value.int 80]
    (by decide) (by decide)

/-- C8: delete-by-id on a table with an `id` column and distinct id
values removes exactly one row and reports one row affected when the id
exists (so the success message is printed), reports zero rows affected
and leaves the table unchanged when it does not (so "Record not found."
is printed), keeps only rows with other ids, and a second delete of the
same id is a no-op reporting zero rows. -/
theorem delete_by_id_exactly_one (t : Table) (idVal : Value) (idIdx : Nat)
    (hid : t.cols.findIdx? (fun c => c = "id") = some idIdx)
    (hnodup : (t.rows.map (fun r => r[idIdx]?)).Nodup) :
    ((∃ row ∈ t.rows, row[idIdx]? = some idVal) →
        (sqlDelete t idVal).2 = 1 ∧
        (sqlDelete t idVal).1.rows.length + 1 = t.rows.length ∧
        ∀ name, deleteReport name (sqlDelete t idVal).2 =
          "Successfully deleted from table " ++ name) ∧
    ((∀ row ∈ t.rows, ¬ row[idIdx]? = some idVal) →
        (sqlDelete t idVal).2 = 0 ∧ (sqlDelete t idVal).1 = t ∧
        ∀ name, deleteReport name (sqlDelete t idVal).2 =
          "Record not found.") ∧
    ((sqlDelete t idVal).1.cols = t.cols) ∧
    (∀ row ∈ (sqlDelete t idVal).1.rows,
        row ∈ t.rows ∧ ¬ row[idIdx]? = some idVal) ∧
    (sqlDelete (sqlDelete t idVal).1 idVal =
      ((sqlDelete t idVal).1, 0)) := by
  have hcount : (t.rows.filter (fun row => row[idIdx]? = some idVal)).length +
      (t.rows.filter (fun row => ¬ row[idIdx]? = some idVal)).length =
      t.rows.length :=
    length_filter_add_not_prop _ t.rows
  simp only [sqlDelete, hid]
  refine ⟨?_, ?_, by trivial, ?_, ?_⟩
  · intro hex
    have hpos : (t.rows.filter
        (fun row => row[idIdx]? = some idVal)).length = 1 :=
      filter_length_eq_one (fun r => r[idIdx]?) idVal t.rows hnodup hex
    have hc : t.rows.length -
        (t.rows.filter (fun row => ¬ row[idIdx]? = some idVal)).length = 1 := by
      omega
    refine ⟨hc, by omega, ?_⟩
    intro name
    rw [hc]
    rfl
  · intro hall
    have hrem : t.rows.filter (fun row => ¬ row[idIdx]? = some idVal) =
        t.rows := by
      apply List.filter_eq_self.mpr
      intro a ha
      simpa using hall a ha
    have hc : t.rows.length -
        (t.rows.filter (fun row => ¬ row[idIdx]? = some idVal)).length = 0 := by
      rw [hrem]
      omega
    refine ⟨hc, by rw [hrem], ?_⟩
    intro name
    rw [hc]
    rfl
  · intro row hrow
    have h2 := List.mem_filter.mp hrow
    exact ⟨h2.1, by simpa using h2.2⟩
  · have hff : (t.rows.filter
        (fun row => ¬ row[idIdx]? = some idVal)).filter
          (fun row => ¬ row[idIdx]? = some idVal) =
        t.rows.filter (fun row => ¬ row[idIdx]? = some idVal) := by
      apply List.filter_eq_self.mpr
      intro a ha
      exact (List.mem_filter.mp ha).2
    rw [hff]
    simp

/-- Witness for `delete_by_id_exactly_one` on the concrete Pilots table:
deleting id 2 removes one row, deleting the missing id 9 removes none,
and deleting id 2 again is a no-op. -/
theorem delete_by_id_exactly_one_witness :
    (sqlDelete pilotsTable (Value.int 2)).2 = 1 ∧
    (sqlDelete pilotsTable (Value.int 9)).2 = 0 ∧
    sqlDelete (sqlDelete pilotsTable (Value.int 2)).1 (Value.int 2) =
      ((sqlDelete pilotsTable (Value.int 2)).1, 0) := by
  have h2 := delete_by_id_exactly_one pilotsTable (Value.int 2) 0
    (by decide) (by decide)
  have h9 := delete_by_id_exactly_one pilotsTable (Value.int 9) 0
    (by decide) (by decide)
  exact ⟨(h2.1 ⟨[Value.int 2, Value.str "John Roe", Value.str "XYZ789",
      Value.int 80], by decide, by decide⟩).1,
    (h9.2.1 (by decide)).1, h2.2.2.2.2⟩

/-! ## C9: bootstrap failure isolation -/

theorem createTable_log_mono (st : BootState) (u : String) (x : LogEntry)
    (hx : x ∈ st.log) : x ∈ (createTable st u).log := by
  unfold createTable
  split <;> exact List.mem_append_left _ hx

theorem createTable_created_mono (st : BootState) (u : String) (x : String)
    (hx : x ∈ st.created) : x ∈ (createTable st u).created := by
  unfold createTable
  split
  · exact List.mem_append_left _ hx
  · exact hx

theorem createTable_adds (st : BootState) (u : String)
    (hu : pyLower u ∈ get_table_names) : u ∈ (createTable st u).created := by
  unfold createTable
  rw [if_pos hu]
  exact List.mem_append_right _ (List.mem_singleton_self u)

theorem populateTable_log_mono (seeds : SeedStore) (st : BootState)
    (u : String) (x : LogEntry) (hx : x ∈ st.log) :
    x ∈ (populateTable seeds st u).log := by
  unfold populateTable
  split <;> exact List.mem_append_left _ hx

theorem populateTable_created_eq (seeds : SeedStore) (st : BootState)
    (u : String) : (populateTable seeds st u).created = st.created := by
  unfold populateTable
  split <;> rfl

theorem populateTable_adds_err (seeds : SeedStore) (st : BootState)
    (u : String) (e : String) (he : seeds (pyLower u) = .error e) :
    LogEntry.errorLog ("Failed to populate table " ++ u) e ∈
      (populateTable seeds st u).log := by
  unfold populateTable
  rw [he]
  exact List.mem_append_right _ (List.mem_singleton_self _)

theorem populateTable_adds_ok (seeds : SeedStore) (st : BootState)
    (u : String) (contents : String) (hc : seeds (pyLower u) = .ok contents) :
    LogEntry.infoLog ("Successfully populated table " ++ u) ∈
      (populateTable seeds st u).log := by
  unfold populateTable
  rw [hc]
  exact List.mem_append_right _ (List.mem_singleton_self _)

theorem bootStep_log_mono (seeds : SeedStore) (st : BootState) (u : String)
    (x : LogEntry) (hx : x ∈ st.log) : x ∈ (bootStep seeds st u).log :=
  populateTable_log_mono seeds _ u x (createTable_log_mono st u x hx)

theorem bootStep_created_mono (seeds : SeedStore) (st : BootState)
    (u : String) (x : String) (hx : x ∈ st.created) :
    x ∈ (bootStep seeds st u).created := by
  unfold bootStep
  rw [populateTable_created_eq]
  exact createTable_created_mono st u x hx

theorem foldl_boot_pres (seeds : SeedStore) (P : BootState → Prop)
    (hpres : ∀ s u, P s → P (bootStep seeds s u)) :
    ∀ (names : List String) (st : BootState),
      P st → P (names.foldl (bootStep seeds) st) := by
  intro names
  induction names with
  | nil => exact fun st h => h
  | cons u rest ih =>
    intro st h
    exact ih (bootStep seeds st u) (hpres st u h)

theorem foldl_boot_estab (seeds : SeedStore) (P : BootState → Prop)
    (t : String) (hstep : ∀ s, P (bootStep seeds s t))
    (hpres : ∀ s u, P s → P (bootStep seeds s u)) :
    ∀ (names : List String) (st : BootState),
      t ∈ names → P (names.foldl (bootStep seeds) st) := by
  intro names
  induction names with
  | nil => intro st h; exact absurd h (List.not_mem_nil t)
  | cons u rest ih =>
    intro st h
    rcases List.mem_cons.mp h with rfl | hrest
    · exact foldl_boot_pres seeds P hpres rest _ (hstep st)
    · exact ih (bootStep seeds st u) hrest

/-- C9: for any seed store, bootstrap creates every registered table; a
table whose seed file raises gets the failure logged (its population
aborts); and a table whose seed file reads fine still gets populated —
the outcome for each table is independent of the failures of the
others. -/
theorem bootstrap_failure_isolation (seeds : SeedStore) :
    (∀ tbl ∈ get_table_names,
        tbl ∈ (initialize_tables seeds initState).created) ∧
    (∀ tbl ∈ get_table_names, ∀ e, seeds (pyLower tbl) = .error e →
        LogEntry.errorLog ("Failed to populate table " ++ tbl) e ∈
          (initialize_tables seeds initState).log) ∧
    (∀ tbl ∈ get_table_names, ∀ contents,
        seeds (pyLower tbl) = .ok contents →
        LogEntry.infoLog ("Successfully populated table " ++ tbl) ∈
          (initialize_tables seeds initState).log) := by
  refine ⟨?_, ?_, ?_⟩
  · intro tbl htbl
    have hlow : pyLower tbl ∈ get_table_names := by
      fin_cases htbl <;> decide
    exact foldl_boot_estab seeds (fun s => tbl ∈ s.created) tbl
      (fun s => by
        show tbl ∈ (populateTable seeds (createTable s tbl) tbl).created
        rw [populateTable_created_eq]
        exact createTable_adds s tbl hlow)
      (fun s u h => bootStep_created_mono seeds s u tbl h)
      get_table_names initState htbl
  · intro tbl htbl e he
    exact foldl_boot_estab seeds
      (fun s => LogEntry.errorLog ("Failed to populate table " ++ tbl) e ∈ s.log)
      tbl
      (fun s => populateTable_adds_err seeds (createTable s tbl) tbl e he)
      (fun s u h => bootStep_log_mono seeds s u _ h)
      get_table_names initState htbl
  · intro tbl htbl contents hc
    exact foldl_boot_estab seeds
      (fun s => LogEntry.infoLog ("Successfully populated table " ++ tbl) ∈ s.log)
      tbl
      (fun s => populateTable_adds_ok seeds (createTable s tbl) tbl contents hc)
      (fun s u h => bootStep_log_mono seeds s u _ h)
      get_table_names initState htbl

/-- Witness for `bootstrap_failure_isolation` at a concrete seed store
where only the pilots seed file exists: destinations fails and is logged,
yet flights is still created and pilots still populated. -/
theorem bootstrap_failure_isolation_witness :
    "flights" ∈ (initialize_tables demoSeeds initState).created ∧
    LogEntry.errorLog "Failed to populate table destinations"
        "FileNotFoundError" ∈ (initialize_tables demoSeeds initState).log ∧
    LogEntry.infoLog "Successfully populated table pilots" ∈
      (initialize_tables demoSeeds initState).log := by
  have h := bootstrap_failure_isolation demoSeeds
  exact ⟨h.1 "flights" (by decide),
    h.2.1 "destinations" (by decide) "FileNotFoundError" rfl,
    h.2.2 "pilots" (by decide)
      "id,name,license_number,flight_hours\x0a1,Jane Doe,ABC123,500" rfl⟩
